import Mathlib

/-!
Shallow embedding of `src/image-converter.py` (Graphical Abstract Image
Converter).  Pure functions of the script become Lean functions; the
script's file-system and library effects become explicit data:

* Decoded bitmaps (`PIL.Image`) are modelled by `Img`: dimensions, a color
  mode, and a total pixel function returning up to four 8-bit channels as
  naturals.  Out-of-bounds values of the pixel function are a model
  artifact; every statement about pixels is restricted to in-bounds
  coordinates.
* Python `int(1200 * a / b)` on positive ints is truncation of the exact
  quotient, modelled by `Nat` division (for dimensions below 2^32 the
  float quotient and the exact quotient have the same floor, since the
  quotient is at distance at least `1/b > ulp` from any integer it does
  not equal).
* PDF point arithmetic (floats in the script) is modelled over `ℚ`; the
  quantities involved (288, page sizes, their quotients) are exact in
  the model.
* Library collaborators (pypdf, pdf2image, reportlab, Pillow I/O) are
  modelled by an environment `ConvEnv` of outcome flags (which calls
  raise, how many pages/images they produce); control flow of the script,
  including its `try/except` handlers, temp-file creation/deletion and
  which output files get written, is translated branch by branch.
-/

/-- Color modes of decoded bitmaps, as the script distinguishes them
(line 228 tests for the string `RGBA`, line 232 for `RGB`; `L` and `LA`
are representative further Pillow modes, `LA` being grayscale with an
alpha channel).  Channel layout in `Img.pix`: `RGB`/`RGBA` use components
1-3 for red, green, blue and component 4 for alpha; `L`/`LA` use
component 1 for luminance and component 4 for alpha. -/
inductive PixMode where
  | RGB
  | RGBA
  | L
  | LA
  deriving DecidableEq

/-- An in-memory decoded bitmap (the model of a `PIL.Image`). -/
structure Img where
  width : Nat
  height : Nat
  mode : PixMode
  pix : Nat → Nat → Nat × Nat × Nat × Nat

/-- Pillow's MULDIV255 macro: the rounded product `a * b / 255` computed as
`(t >> 8 + t) >> 8` for `t = a * b + 128`.  This is the arithmetic behind
`Image.paste` with an alpha mask. -/
def muldiv255 (a b : Nat) : Nat :=
  let t := a * b + 128
  (t / 256 + t) / 256

/-- Alpha blending of a foreground channel `fg` with coverage `a` over a
background channel `bg` (Pillow's BLEND macro, used by `paste` with an
8-bit mask). -/
def blend (bg fg a : Nat) : Nat :=
  muldiv255 bg (255 - a) + muldiv255 fg a

/-- Lines 227-233 of `resize_and_save`: mode normalization before resizing.
`RGBA` is pasted onto a white `RGB` background with the alpha channel as
mask; `RGB` passes through unchanged; any other mode goes through Pillow's
plain `convert('RGB')`, which for `L` and `LA` replicates the luminance
channel and discards alpha. -/
def toRGB (img : Img) : Img :=
  match img.mode with
  | PixMode.RGBA =>
    { width := img.width, height := img.height, mode := PixMode.RGB,
      pix := fun x y =>
        (blend 255 (img.pix x y).1 (img.pix x y).2.2.2,
         blend 255 (img.pix x y).2.1 (img.pix x y).2.2.2,
         blend 255 (img.pix x y).2.2.1 (img.pix x y).2.2.2, 255) }
  | PixMode.RGB => img
  | PixMode.L =>
    { width := img.width, height := img.height, mode := PixMode.RGB,
      pix := fun x y =>
        ((img.pix x y).1, (img.pix x y).1, (img.pix x y).1, 255) }
  | PixMode.LA =>
    { width := img.width, height := img.height, mode := PixMode.RGB,
      pix := fun x y =>
        ((img.pix x y).1, (img.pix x y).1, (img.pix x y).1, 255) }

/-- Conversion written to the specification's words (for comparison with
`toRGB`, which is translated from the code): "when mode has an alpha
channel, composite onto white using the alpha channel as mask before
discarding alpha", every other non-RGB mode converted plainly.  So here
`LA` — an alpha mode — is white-composited just like `RGBA`. -/
def specAlphaComposite (img : Img) : Img :=
  match img.mode with
  | PixMode.RGBA =>
    { width := img.width, height := img.height, mode := PixMode.RGB,
      pix := fun x y =>
        (blend 255 (img.pix x y).1 (img.pix x y).2.2.2,
         blend 255 (img.pix x y).2.1 (img.pix x y).2.2.2,
         blend 255 (img.pix x y).2.2.1 (img.pix x y).2.2.2, 255) }
  | PixMode.RGB => img
  | PixMode.L =>
    { width := img.width, height := img.height, mode := PixMode.RGB,
      pix := fun x y =>
        ((img.pix x y).1, (img.pix x y).1, (img.pix x y).1, 255) }
  | PixMode.LA =>
    { width := img.width, height := img.height, mode := PixMode.RGB,
      pix := fun x y =>
        (blend 255 (img.pix x y).1 (img.pix x y).2.2.2,
         blend 255 (img.pix x y).1 (img.pix x y).2.2.2,
         blend 255 (img.pix x y).1 (img.pix x y).2.2.2, 255) }

/-- Lines 237-243: the scaled dimensions `(new_width, new_height)`.
`if width > height: new_height = int(1200 * height / width); new_width =
1200 else: new_width = int(1200 * width / height); new_height = 1200`.
Python `int` of the positive quotient is truncation, i.e. `Nat` division. -/
def newDims (w h : Nat) : Nat × Nat :=
  if h < w then (1200, 1200 * h / w) else (1200 * w / h, 1200)

/-- Line 252: `offset = ((1200 - new_width) // 2, (1200 - new_height) // 2)`. -/
def pasteOffset (nw nh : Nat) : Nat × Nat :=
  ((1200 - nw) / 2, (1200 - nh) / 2)

/-- Scaled width of an image under lines 237-243. -/
def nwOf (img : Img) : Nat := (newDims img.width img.height).1

/-- Scaled height of an image under lines 237-243. -/
def nhOf (img : Img) : Nat := (newDims img.width img.height).2

/-- Horizontal paste offset (line 252) for an image. -/
def oxOf (img : Img) : Nat := (pasteOffset (nwOf img) (nhOf img)).1

/-- Vertical paste offset (line 252) for an image. -/
def oyOf (img : Img) : Nat := (pasteOffset (nwOf img) (nhOf img)).2

/-- The white pixel of the canvas `Image.new('RGB', (1200, 1200),
(255, 255, 255))`; the fourth component is the padding byte of Pillow's
4-byte RGB storage. -/
def whitePix : Nat × Nat × Nat × Nat := (255, 255, 255, 255)

/-- Line 249: `img.resize((new_width, new_height), Image.LANCZOS)`.
Pillow's `resize` returns a copy unchanged when the requested size equals
the current size (its early-return shortcut), which is the only case any
claim relies on; for a genuine size change the Lanczos kernel is an
external-library computation, modelled here as coordinate-mapped
sampling (no claim inspects resampled pixel values). -/
def resizeImg (img : Img) (w h : Nat) : Img :=
  if img.width = w ∧ img.height = h then img
  else
    { width := w, height := h, mode := img.mode,
      pix := fun x y => img.pix (x * img.width / w) (y * img.height / h) }

/-- Lines 246-253: allocate the 1200 by 1200 white RGB canvas and paste
the resized image at the centering offset.  `paste` writes the rectangle
of the pasted image starting at the offset; everything else stays white. -/
def pasteStep (img : Img) : Img :=
  { width := 1200, height := 1200, mode := PixMode.RGB,
    pix := fun x y =>
      if oxOf img ≤ x ∧ x < oxOf img + nwOf img
         ∧ oyOf img ≤ y ∧ y < oyOf img + nhOf img then
        (resizeImg img (nwOf img) (nhOf img)).pix (x - oxOf img) (y - oyOf img)
      else whitePix }

/-- The Raster Normalizer (lines 227-253): mode conversion followed by
scale-to-fit pasting onto the white 1200 by 1200 canvas. -/
def rasterNormalize (img : Img) : Img :=
  pasteStep (toRGB img)

/-- The dimension formula as the claim words it: `round(1200 * min(w,h) /
max(w,h))`, written as round-half-up over naturals (the inputs compared
against it are tie-free, so the half-rule is immaterial).  For comparison
with `newDims`, which is translated from the code. -/
def specRoundedDim (w h : Nat) : Nat :=
  (2 * (1200 * min w h) + max w h) / (2 * max w h)

/-- Line 77: `target_size_pt = 1200 / 300 * 72`. -/
def targetSizePt : ℚ := 1200 / 300 * 72

/-- The affine data computed by `process_pdf_preserve_vector`
(lines 73-93): uniform scale factors, scaled page dimensions, and
centering offsets, all in PDF points. -/
structure VecTransform where
  scaleW : ℚ
  scaleH : ℚ
  newW : ℚ
  newH : ℚ
  xOff : ℚ
  yOff : ℚ

/-- Lines 80-93 of `process_pdf_preserve_vector`: `if orig_width >
orig_height: scale_width = target / orig_width; scale_height =
scale_width else: scale_height = target / orig_height; scale_width =
scale_height`, then the scaled dimensions and centering offsets. -/
def vectorTransform (w h : ℚ) : VecTransform :=
  let s := if h < w then targetSizePt / w else targetSizePt / h
  { scaleW := s, scaleH := s, newW := w * s, newH := h * s,
    xOff := (targetSizePt - w * s) / 2, yOff := (targetSizePt - h * s) / 2 }

/-- Helper for `splitextExt`: scan the reversed path for the last dot of
the original string, stopping at a path separator.  Returns the reversed
extension body and the remaining reversed prefix. -/
def findExtRev : List Char → Option (List Char × List Char)
  | [] => none
  | c :: cs =>
    if c = '.' then some ([], cs)
    else if c = '/' then none
    else
      match findExtRev cs with
      | some (e, r) => some (c :: e, r)
      | none => none

/-- Helper for `splitextExt`: does the reversed basename prefix (up to the
next separator) contain a character other than a dot?  CPython's
`splitext` refuses to split when everything before the candidate dot in
the basename is dots (so `.bashrc` has no extension). -/
def baseHasNonDot : List Char → Bool
  | [] => false
  | c :: cs => if c = '/' then false else if c = '.' then baseHasNonDot cs else true

/-- Extension part of `os.path.splitext(path)[1]` (POSIX separators):
the suffix starting at the last dot, provided that dot lies after the
last separator and the basename has a non-dot character before it. -/
def splitextExt (path : List Char) : List Char :=
  match findExtRev path.reverse with
  | none => []
  | some (extRev, rest) =>
    if baseHasNonDot rest then '.' :: extRev.reverse else []

/-- Line 203: `ext = os.path.splitext(input_path)[1].lower()` (ASCII
lowercasing; extensions are ASCII). -/
def extLower (path : List Char) : List Char :=
  (splitextExt path).map Char.toLower

/-- The extension string compared against on lines 206 and 214. -/
def pdfExt : List Char := ['.', 'p', 'd', 'f']

/-- The four ways `resize_and_save` (lines 203-218) routes an input. -/
inductive Route where
  | reject
  | vector
  | rasterPdf
  | direct
  deriving DecidableEq

/-- Lines 203-218 of `resize_and_save`: routing on the lowercased
extension and the two flags.  `reject` is the early `return False` of
lines 207-209; `vector` calls `process_pdf_preserve_vector`; `rasterPdf`
calls `process_pdf`; `direct` opens the file as an image. -/
def routeOf (path : List Char) (preserveVector pdfOnly : Bool) : Route :=
  let ext := extLower path
  if ext = pdfExt ∧ preserveVector = true then
    if pdfOnly = false then Route.reject else Route.vector
  else if ext = pdfExt then Route.rasterPdf
  else Route.direct

/-- Outcomes of the library collaborators for one run: which calls raise,
and how many pages or images they produce.  `primaryOk` and
`primaryCount` describe `convert_from_path` on the input (line 149);
`readerOk` describes `pypdf.PdfReader` on the input (lines 64 and 164);
`pages` its page count; `fallbackOk` and `fallbackCount` describe
`convert_from_path` on the intermediate file (line 173); `mergeOk`
describes `merge_transformed_page` (line 118); `imageOpenOk` describes
`Image.open` (line 222); `imgW`, `imgH` are the decoded image's size.
Temp-file creation and output writes are assumed not to raise. -/
structure ConvEnv where
  primaryOk : Bool
  primaryCount : Nat
  readerOk : Bool
  pages : Nat
  fallbackOk : Bool
  fallbackCount : Nat
  mergeOk : Bool
  imageOpenOk : Bool
  imgW : Nat
  imgH : Nat
  deriving DecidableEq

/-- Observable outcome of `process_pdf` (lines 141-192): whether an image
was returned (instead of `None`), whether the intermediate temp file was
created and whether it was deleted, and whether the installation-guidance
message of lines 179-185 was printed. -/
structure PdfResult where
  img : Bool
  tempCreated : Bool
  tempDeleted : Bool
  guidance : Bool
  deriving DecidableEq

/-- Observable outcome of `process_pdf_preserve_vector` (lines 57-139):
return value, temp-file events, and whether the output PDF was written. -/
structure VecResult where
  success : Bool
  tempCreated : Bool
  tempDeleted : Bool
  written : Bool
  deriving DecidableEq

/-- Kinds of output artifact the script writes. -/
inductive OutKind where
  | tiff
  | png
  | pdf
  deriving DecidableEq

/-- Observable outcome of `resize_and_save`: boolean result, output files
written in order, and whether an exception escaped the function (the only
modelled escape is the division by zero of line 242 on a 0 by 0 image). -/
structure RunResult where
  success : Bool
  written : List OutKind
  crashed : Bool
  deriving DecidableEq

/-- Observable outcome of `main` (lines 298-327): process exit code,
output files written, and whether an uncaught exception escaped. -/
structure MainResult where
  exitCode : Nat
  written : List OutKind
  crashed : Bool
  deriving DecidableEq

/-- Lines 141-192, `process_pdf`, branch by branch.  Primary path: with
pdf2image available and `convert_from_path` returning a nonempty list,
the first page is returned and no temp file exists.  Otherwise the
fallback runs: the temp file is created (line 160); if `pypdf.PdfReader`
raises, control jumps to the handler of line 189 and the temp file is
never unlinked; with pdf2image available the intermediate conversion
either succeeds (unlink at line 176 or 188), or raises and again skips
both unlinks; without pdf2image the guidance message is printed and the
temp file is unlinked at line 188. -/
def processPdf (avail : Bool) (e : ConvEnv) : PdfResult :=
  if avail = true ∧ e.primaryOk = true ∧ 0 < e.primaryCount then
    { img := true, tempCreated := false, tempDeleted := false, guidance := false }
  else if e.readerOk = false then
    { img := false, tempCreated := true, tempDeleted := false, guidance := false }
  else if avail = true then
    if e.fallbackOk = true then
      if 0 < e.fallbackCount then
        { img := true, tempCreated := true, tempDeleted := true, guidance := false }
      else
        { img := false, tempCreated := true, tempDeleted := true, guidance := false }
    else
      { img := false, tempCreated := true, tempDeleted := false, guidance := false }
  else
    { img := false, tempCreated := true, tempDeleted := true, guidance := true }

/-- Lines 57-139, `process_pdf_preserve_vector`, branch by branch.  If
`PdfReader` raises, the handler returns `False` before the temp file
exists; a zero-page input returns early (line 67); otherwise the blank
temp page is created (line 100); if the merge (or anything after it)
raises, the handler of line 137 returns `False` without the unlink of
line 133; on success the output is written, the temp file unlinked, and
`True` returned. -/
def processPdfPreserveVector (e : ConvEnv) : VecResult :=
  if e.readerOk = false then
    { success := false, tempCreated := false, tempDeleted := false, written := false }
  else if e.pages = 0 then
    { success := false, tempCreated := false, tempDeleted := false, written := false }
  else if e.mergeOk = true then
    { success := true, tempCreated := true, tempDeleted := true, written := true }
  else
    { success := false, tempCreated := true, tempDeleted := false, written := false }

/-- Lines 263-294: the outputs written for one normalized canvas,
TIFF and PNG first unless `pdf_only`, then always the PDF. -/
def writeOutputs (pdfOnly : Bool) : List OutKind :=
  if pdfOnly = true then [OutKind.pdf] else [OutKind.tiff, OutKind.png, OutKind.pdf]

/-- Lines 237-294 applied to a decoded image of the given size: the
division of line 242 raises ZeroDivisionError exactly when both
dimensions are zero (an exception that escapes `resize_and_save`);
otherwise the canvas is built and the requested outputs written. -/
def rasterFinish (pdfOnly : Bool) (w h : Nat) : RunResult :=
  if w = 0 ∧ h = 0 then { success := false, written := [], crashed := true }
  else { success := true, written := writeOutputs pdfOnly, crashed := false }

/-- Lines 194-296, `resize_and_save`: route on extension and flags, then
run the selected pipeline. -/
def resizeAndSave (path : List Char) (preserveVector pdfOnly avail : Bool)
    (e : ConvEnv) : RunResult :=
  match routeOf path preserveVector pdfOnly with
  | Route.reject => { success := false, written := [], crashed := false }
  | Route.vector =>
    let v := processPdfPreserveVector e
    { success := v.success,
      written := if v.written = true then [OutKind.pdf] else [],
      crashed := false }
  | Route.rasterPdf =>
    let p := processPdf avail e
    if p.img = true then rasterFinish pdfOnly e.imgW e.imgH
    else { success := false, written := [], crashed := false }
  | Route.direct =>
    if e.imageOpenOk = true then rasterFinish pdfOnly e.imgW e.imgH
    else { success := false, written := [], crashed := false }

/-- Lines 298-327, `main`: the flag-combination guard of lines 311-314
runs first (exit 1, nothing written), then the existence check of
line 317, then `resize_and_save` decides the exit code.  A crash escaping
`resize_and_save` also ends the interpreter with a nonzero code. -/
def mainModel (path : List Char) (preserveVector pdfOnly fileExists avail : Bool)
    (e : ConvEnv) : MainResult :=
  if preserveVector = true ∧ pdfOnly = false then
    { exitCode := 1, written := [], crashed := false }
  else if fileExists = false then
    { exitCode := 1, written := [], crashed := false }
  else
    let r := resizeAndSave path preserveVector pdfOnly avail e
    if r.crashed = true then { exitCode := 1, written := r.written, crashed := true }
    else { exitCode := if r.success = true then 0 else 1, written := r.written, crashed := false }

/-! ### Helper lemmas about the embedded definitions -/

theorem toRGB_width (img : Img) : (toRGB img).width = img.width := by
  cases img with
  | mk w h m p => cases m <;> rfl

theorem toRGB_height (img : Img) : (toRGB img).height = img.height := by
  cases img with
  | mk w h m p => cases m <;> rfl

theorem toRGB_mode (img : Img) : (toRGB img).mode = PixMode.RGB := by
  cases img with
  | mk w h m p => cases m <;> rfl

theorem toRGB_of_rgb (img : Img) (hm : img.mode = PixMode.RGB) : toRGB img = img := by
  cases img with
  | mk w h m p =>
    cases m
    · rfl
    all_goals exact absurd hm (by simp)

theorem newDims_fst_le (w h : Nat) : (newDims w h).1 ≤ 1200 := by
  unfold newDims
  split
  · exact le_refl 1200
  · rename_i hnot
    rcases Nat.eq_zero_or_pos h with h0 | hpos
    · subst h0
      simp at hnot
      subst hnot
      simp
    · calc 1200 * w / h ≤ 1200 * h / h :=
            Nat.div_le_div_right (Nat.mul_le_mul_left 1200 (not_lt.mp hnot))
        _ = 1200 := Nat.mul_div_cancel 1200 hpos

theorem newDims_snd_le (w h : Nat) : (newDims w h).2 ≤ 1200 := by
  unfold newDims
  split
  · rename_i hlt
    have hwpos : 0 < w := Nat.lt_of_le_of_lt (Nat.zero_le h) hlt
    calc 1200 * h / w ≤ 1200 * w / w :=
          Nat.div_le_div_right (Nat.mul_le_mul_left 1200 (le_of_lt hlt))
      _ = 1200 := Nat.mul_div_cancel 1200 hwpos
  · exact le_refl 1200

theorem nwOf_toRGB (img : Img) : nwOf (toRGB img) = nwOf img := by
  unfold nwOf
  rw [toRGB_width, toRGB_height]

theorem nhOf_toRGB (img : Img) : nhOf (toRGB img) = nhOf img := by
  unfold nhOf
  rw [toRGB_width, toRGB_height]

theorem oxOf_toRGB (img : Img) : oxOf (toRGB img) = oxOf img := by
  unfold oxOf
  rw [nwOf_toRGB, nhOf_toRGB]

theorem oyOf_toRGB (img : Img) : oyOf (toRGB img) = oyOf img := by
  unfold oyOf
  rw [nwOf_toRGB, nhOf_toRGB]

/-- Truncating division is a lower bound for round-half-up. -/
theorem div_le_roundHalfUp (q M : Nat) : q / M ≤ (2 * q + M) / (2 * M) := by
  rcases Nat.eq_zero_or_pos M with h0 | hpos
  · subst h0
    simp
  · have h1 : q / M = 2 * q / (2 * M) := (Nat.mul_div_mul_left q M two_pos).symm
    rw [h1]
    exact Nat.div_le_div_right (by omega)

/-- Round-half-up exceeds truncating division by at most one. -/
theorem roundHalfUp_le_div_succ (q M : Nat) (hpos : 0 < M) :
    (2 * q + M) / (2 * M) ≤ q / M + 1 := by
  have hdm := Nat.div_add_mod q M
  have hmod := Nat.mod_lt q hpos
  have key : 2 * q + M < (q / M + 2) * (2 * M) := by
    have h2 : (q / M + 2) * (2 * M) = 2 * (M * (q / M)) + 4 * M := by ring
    rw [h2]
    have h3 : 2 * q + M = 2 * (M * (q / M)) + 2 * (q % M) + M := by omega
    rw [h3]
    have h4 : 2 * (q % M) + M < 4 * M := by omega
    omega
  have hlt := (Nat.div_lt_iff_lt_mul (by omega : 0 < 2 * M)).mpr key
  omega

/-! ### Concrete inputs used by witnesses and counterexamples -/

/-- An environment in which every library collaborator behaves normally. -/
def okEnv : ConvEnv :=
  { primaryOk := true, primaryCount := 1, readerOk := true, pages := 1,
    fallbackOk := true, fallbackCount := 1, mergeOk := true,
    imageOpenOk := true, imgW := 100, imgH := 100 }

/-- An environment in which `pypdf.PdfReader` raises on the input file
(for example a corrupt PDF); everything else behaves normally. -/
def badReaderEnv : ConvEnv :=
  { primaryOk := true, primaryCount := 1, readerOk := false, pages := 1,
    fallbackOk := true, fallbackCount := 1, mergeOk := true,
    imageOpenOk := true, imgW := 100, imgH := 100 }

/-! ### Claim theorems -/

/-- C4: for every invocation with the preserve-vector flag but without
the pdf-only flag, the program exits with code 1 and writes no output
files (lines 311-314 run before any file is touched). -/
theorem C4_preserve_vector_requires_pdf_only
    (path : List Char) (fileExists avail : Bool) (e : ConvEnv) :
    (mainModel path true false fileExists avail e).exitCode = 1
  ∧ (mainModel path true false fileExists avail e).written = [] :=
  ⟨rfl, rfl⟩

/-- C5, counterexample: with pdf2image unavailable and a PDF that
`pypdf.PdfReader` cannot read, `process_pdf` creates its intermediate
temp file (line 160) and then the exception of line 164 jumps to the
handler of line 189, skipping both `os.unlink` calls: the temp file is
created but never deleted, refuting deletion on every exit path. -/
theorem C5_temp_leak_counterexample :
    (processPdf false badReaderEnv).tempCreated = true
  ∧ (processPdf false badReaderEnv).tempDeleted = false := by
  decide

/-- C5, amended: the intermediate temp file is deleted on every exit path
on which no exception is raised after its creation (success, an empty
conversion result, and the no-renderer guidance path), and precisely
then: in `process_pdf` the temp file survives whenever `PdfReader` or the
fallback `convert_from_path` raises, and in
`process_pdf_preserve_vector` whenever the merge raises. -/
theorem C5_amended_cleanup (avail : Bool) (e : ConvEnv) :
    (processPdf avail e).tempDeleted
      = ((processPdf avail e).tempCreated && e.readerOk && (!avail || e.fallbackOk))
  ∧ (processPdfPreserveVector e).tempDeleted
      = ((processPdfPreserveVector e).tempCreated && e.mergeOk) := by
  constructor
  · unfold processPdf
    repeat' split
    all_goals simp_all
  · unfold processPdfPreserveVector
    repeat' split
    all_goals simp_all

/-- C7: with pdf2image unavailable, a readable `.pdf` input and no
preserve-vector flag, `process_pdf` returns no image but prints the
installation guidance, and the program exits with code 1, writing no
output files and raising no uncaught exception. -/
theorem C7_graceful_without_pdf2image
    (path : List Char) (pdfOnly : Bool) (e : ConvEnv)
    (hext : extLower path = pdfExt) (hreader : e.readerOk = true) :
    (processPdf false e).img = false
  ∧ (processPdf false e).guidance = true
  ∧ mainModel path false pdfOnly true false e
      = { exitCode := 1, written := [], crashed := false } := by
  have hp : processPdf false e
      = { img := false, tempCreated := true, tempDeleted := true, guidance := true } := by
    unfold processPdf
    simp [hreader]
  refine ⟨by rw [hp], by rw [hp], ?_⟩
  unfold mainModel resizeAndSave routeOf
  simp [hext, hp]

/-- Witness for C7 at the concrete input `x.pdf` with a well-behaved
environment apart from the missing pdf2image capability. -/
theorem C7_graceful_without_pdf2image_witness :
    (processPdf false okEnv).img = false
  ∧ (processPdf false okEnv).guidance = true
  ∧ mainModel ['x', '.', 'p', 'd', 'f'] false false true false okEnv
      = { exitCode := 1, written := [], crashed := false } :=
  C7_graceful_without_pdf2image ['x', '.', 'p', 'd', 'f'] false okEnv (by decide) rfl

/-- C8, counterexample: for the non-PDF input `x.png` the preserve-vector
flag is not ignored when the pdf-only flag is absent: with it the program
exits with code 1 writing nothing (guard of lines 311-314), without it
the same invocation succeeds and writes all three outputs. -/
theorem C8_flag_counterexample :
    mainModel ['x', '.', 'p', 'n', 'g'] true false true true okEnv
      ≠ mainModel ['x', '.', 'p', 'n', 'g'] false false true true okEnv
  ∧ (mainModel ['x', '.', 'p', 'n', 'g'] true false true true okEnv).exitCode = 1
  ∧ (mainModel ['x', '.', 'p', 'n', 'g'] true false true true okEnv).written = []
  ∧ (mainModel ['x', '.', 'p', 'n', 'g'] false false true true okEnv).exitCode = 0
  ∧ (mainModel ['x', '.', 'p', 'n', 'g'] false false true true okEnv).written
      = [OutKind.tiff, OutKind.png, OutKind.pdf] := by
  decide

/-- C8, amended: `resize_and_save` itself ignores the preserve-vector
flag for every non-PDF input (identical outcome for every value of the
pdf-only flag), and hence whole invocations with the pdf-only flag set
are identical with and without preserve-vector; only the CLI guard of
lines 311-314 makes the flag observable without pdf-only. -/
theorem C8_amended_flag_ignored
    (path : List Char) (pdfOnly fileExists avail : Bool) (e : ConvEnv)
    (hext : extLower path ≠ pdfExt) :
    resizeAndSave path true pdfOnly avail e = resizeAndSave path false pdfOnly avail e
  ∧ mainModel path true true fileExists avail e
      = mainModel path false true fileExists avail e := by
  have hroute : ∀ pv po : Bool, routeOf path pv po = Route.direct := by
    intro pv po
    unfold routeOf
    simp [hext]
  constructor
  · unfold resizeAndSave
    rw [hroute, hroute]
  · have h1 : resizeAndSave path true true avail e = resizeAndSave path false true avail e := by
      unfold resizeAndSave
      rw [hroute, hroute]
    unfold mainModel
    rw [h1]
    simp

/-- Witness for the amended C8 at the concrete non-PDF input `x.png`. -/
theorem C8_amended_flag_ignored_witness :
    resizeAndSave ['x', '.', 'p', 'n', 'g'] true true true okEnv
      = resizeAndSave ['x', '.', 'p', 'n', 'g'] false true true okEnv
  ∧ mainModel ['x', '.', 'p', 'n', 'g'] true true true true okEnv
      = mainModel ['x', '.', 'p', 'n', 'g'] false true true true okEnv :=
  C8_amended_flag_ignored ['x', '.', 'p', 'n', 'g'] true true true okEnv (by decide)

/-- Pixel characterization of `pasteStep`, by unfolding. -/
theorem pasteStep_pix (img : Img) (x y : Nat) :
    (pasteStep img).pix x y
      = if oxOf img ≤ x ∧ x < oxOf img + nwOf img
           ∧ oyOf img ≤ y ∧ y < oyOf img + nhOf img then
          (resizeImg img (nwOf img) (nhOf img)).pix (x - oxOf img) (y - oyOf img)
        else whitePix := rfl

/-- Padding arithmetic: on each axis the two surrounding paddings sum with
the scaled dimension to 1200, the left or top padding never exceeds the
other, and the two differ by at most one. -/
theorem padding_facts (img : Img) :
    oxOf img + nwOf img + (1200 - nwOf img - oxOf img) = 1200
  ∧ (1200 - nwOf img - oxOf img) - oxOf img ≤ 1
  ∧ oxOf img ≤ 1200 - nwOf img - oxOf img
  ∧ oyOf img + nhOf img + (1200 - nhOf img - oyOf img) = 1200
  ∧ (1200 - nhOf img - oyOf img) - oyOf img ≤ 1
  ∧ oyOf img ≤ 1200 - nhOf img - oyOf img := by
  have h1 := newDims_fst_le img.width img.height
  have h2 := newDims_snd_le img.width img.height
  unfold oxOf oyOf nwOf nhOf pasteOffset
  dsimp only
  omega

/-- C1: the Raster Normalizer always produces an RGB canvas of exactly
1200 by 1200 pixels, with the resized image pasted at offset
`((1200 - new_width) / 2, (1200 - new_height) / 2)`, white everywhere
else, and on each axis the two white paddings sum with the scaled
dimension to 1200 and differ from each other by at most one pixel. -/
theorem C1_canvas_1200_centered (img : Img)
    (_hw : 0 < img.width) (_hh : 0 < img.height) :
    (rasterNormalize img).width = 1200
  ∧ (rasterNormalize img).height = 1200
  ∧ (rasterNormalize img).mode = PixMode.RGB
  ∧ oxOf img = (1200 - nwOf img) / 2
  ∧ oyOf img = (1200 - nhOf img) / 2
  ∧ (∀ x y, oxOf img ≤ x → x < oxOf img + nwOf img →
      oyOf img ≤ y → y < oyOf img + nhOf img →
      (rasterNormalize img).pix x y
        = (resizeImg (toRGB img) (nwOf img) (nhOf img)).pix (x - oxOf img) (y - oyOf img))
  ∧ (∀ x y, ¬(oxOf img ≤ x ∧ x < oxOf img + nwOf img
        ∧ oyOf img ≤ y ∧ y < oyOf img + nhOf img) →
      (rasterNormalize img).pix x y = whitePix)
  ∧ oxOf img + nwOf img + (1200 - nwOf img - oxOf img) = 1200
  ∧ (1200 - nwOf img - oxOf img) - oxOf img ≤ 1
  ∧ oxOf img ≤ 1200 - nwOf img - oxOf img
  ∧ oyOf img + nhOf img + (1200 - nhOf img - oyOf img) = 1200
  ∧ (1200 - nhOf img - oyOf img) - oyOf img ≤ 1
  ∧ oyOf img ≤ 1200 - nhOf img - oyOf img := by
  have hpad := padding_facts img
  refine ⟨rfl, rfl, rfl, rfl, rfl, ?_, ?_,
    hpad.1, hpad.2.1, hpad.2.2.1, hpad.2.2.2.1, hpad.2.2.2.2.1, hpad.2.2.2.2.2⟩
  · intro x y h1 h2 h3 h4
    have hx := pasteStep_pix (toRGB img) x y
    rw [oxOf_toRGB, oyOf_toRGB, nwOf_toRGB, nhOf_toRGB] at hx
    show (pasteStep (toRGB img)).pix x y = _
    rw [hx, if_pos ⟨h1, h2, h3, h4⟩]
  · intro x y hnot
    have hx := pasteStep_pix (toRGB img) x y
    rw [oxOf_toRGB, oyOf_toRGB, nwOf_toRGB, nhOf_toRGB] at hx
    show (pasteStep (toRGB img)).pix x y = _
    rw [hx, if_neg hnot]

/-- A concrete 3 by 2 RGB input for the C1 witness. -/
def exImg : Img :=
  { width := 3, height := 2, mode := PixMode.RGB, pix := fun _ _ => (1, 2, 3, 255) }

/-- Witness for C1 at the concrete 3 by 2 input. -/
theorem C1_canvas_1200_centered_witness :
    (rasterNormalize exImg).width = 1200
  ∧ (rasterNormalize exImg).height = 1200
  ∧ (rasterNormalize exImg).mode = PixMode.RGB
  ∧ oxOf exImg + nwOf exImg + (1200 - nwOf exImg - oxOf exImg) = 1200 := by
  have h := C1_canvas_1200_centered exImg (by decide) (by decide)
  exact ⟨h.1, h.2.1, h.2.2.1, h.2.2.2.2.2.2.2.1⟩

/-- C9: normalizing an image that is already a 1200 by 1200 RGB canvas
computes scaled dimensions 1200 by 1200 (scale factor one), paste offset
(0, 0), a same-size resize that returns the image itself, and a canvas
agreeing with the input at every in-bounds pixel — no further padding. -/
theorem C9_idempotent_normalize (img : Img)
    (hw : img.width = 1200) (hh : img.height = 1200) (hm : img.mode = PixMode.RGB) :
    newDims img.width img.height = (1200, 1200)
  ∧ oxOf img = 0
  ∧ oyOf img = 0
  ∧ resizeImg img (nwOf img) (nhOf img) = img
  ∧ (rasterNormalize img).width = 1200
  ∧ (rasterNormalize img).height = 1200
  ∧ (rasterNormalize img).mode = PixMode.RGB
  ∧ ∀ x y, x < 1200 → y < 1200 → (rasterNormalize img).pix x y = img.pix x y := by
  have hnd : newDims img.width img.height = (1200, 1200) := by
    rw [hw, hh]
    rfl
  have hnw : nwOf img = 1200 := by
    unfold nwOf
    rw [hnd]
  have hnh : nhOf img = 1200 := by
    unfold nhOf
    rw [hnd]
  have hox : oxOf img = 0 := by
    unfold oxOf pasteOffset
    rw [hnw]
  have hoy : oyOf img = 0 := by
    unfold oyOf pasteOffset
    rw [hnh]
  have hres : resizeImg img (nwOf img) (nhOf img) = img := by
    unfold resizeImg
    rw [hnw, hnh, hw, hh]
    simp
  refine ⟨hnd, hox, hoy, hres, rfl, rfl, rfl, ?_⟩
  intro x y hx hy
  have hrgb : toRGB img = img := toRGB_of_rgb img hm
  have hp := pasteStep_pix (toRGB img) x y
  rw [hrgb] at hp
  show (pasteStep (toRGB img)).pix x y = img.pix x y
  rw [hrgb, hp, hres, hox, hoy, hnw, hnh]
  simp [hx, hy]

/-- A concrete all-white 1200 by 1200 canvas for the C9 witness. -/
def whiteCanvas : Img :=
  { width := 1200, height := 1200, mode := PixMode.RGB, pix := fun _ _ => whitePix }

/-- Witness for C9 at the concrete white canvas, including one concrete
in-bounds pixel. -/
theorem C9_idempotent_normalize_witness :
    newDims whiteCanvas.width whiteCanvas.height = (1200, 1200)
  ∧ oxOf whiteCanvas = 0
  ∧ (rasterNormalize whiteCanvas).pix 3 4 = whiteCanvas.pix 3 4 := by
  have h := C9_idempotent_normalize whiteCanvas rfl rfl rfl
  exact ⟨h.1, h.2.1, h.2.2.2.2.2.2.2 3 4 (by decide) (by decide)⟩

/-- C2, counterexample: for a 7 by 4 input the code computes
`int(1200 * 4 / 7) = 685` (truncation, line 239) while the claim's
`round(1200 * min / max)` is 686. -/
theorem C2_round_counterexample :
    (newDims 7 4).2 = 685
  ∧ specRoundedDim 7 4 = 686
  ∧ (newDims 7 4).2 ≠ specRoundedDim 7 4 := by
  decide

/-- C2, amended: the longer dimension scales to exactly 1200 and the
other dimension is the truncation `1200 * min / max` (Python `int` of the
quotient, line 239/242), which agrees with the claimed rounding to within
one pixel. -/
theorem C2_amended_truncated_dim (w h : Nat) (_hw : 0 < w) (hh : 0 < h) :
    max (newDims w h).1 (newDims w h).2 = 1200
  ∧ min (newDims w h).1 (newDims w h).2 = 1200 * min w h / max w h
  ∧ 1200 * min w h / max w h ≤ specRoundedDim w h
  ∧ specRoundedDim w h ≤ 1200 * min w h / max w h + 1 := by
  rcases lt_or_ge h w with hlt | hge
  · have hnd : newDims w h = (1200, 1200 * h / w) := by
      unfold newDims
      rw [if_pos hlt]
    have hle : 1200 * h / w ≤ 1200 := by
      have hs := newDims_snd_le w h
      rw [hnd] at hs
      exact hs
    have hminwh : min w h = h := min_eq_right (le_of_lt hlt)
    have hmaxwh : max w h = w := max_eq_left (le_of_lt hlt)
    have hwpos : 0 < w := lt_of_le_of_lt (Nat.zero_le h) hlt
    rw [hnd]
    unfold specRoundedDim
    rw [hminwh, hmaxwh]
    exact ⟨max_eq_left hle, min_eq_right hle,
      div_le_roundHalfUp (1200 * h) w, roundHalfUp_le_div_succ (1200 * h) w hwpos⟩
  · have hnd : newDims w h = (1200 * w / h, 1200) := by
      unfold newDims
      rw [if_neg (not_lt.mpr hge)]
    have hle : 1200 * w / h ≤ 1200 := by
      have hs := newDims_fst_le w h
      rw [hnd] at hs
      exact hs
    have hminwh : min w h = w := min_eq_left hge
    have hmaxwh : max w h = h := max_eq_right hge
    rw [hnd]
    unfold specRoundedDim
    rw [hminwh, hmaxwh]
    exact ⟨max_eq_right hle, min_eq_left hle,
      div_le_roundHalfUp (1200 * w) h, roundHalfUp_le_div_succ (1200 * w) h hh⟩

/-- Witness for the amended C2 at the concrete 7 by 4 input. -/
theorem C2_amended_truncated_dim_witness :
    max (newDims 7 4).1 (newDims 7 4).2 = 1200
  ∧ min (newDims 7 4).1 (newDims 7 4).2 = 1200 * min 7 4 / max 7 4
  ∧ 1200 * min 7 4 / max 7 4 ≤ specRoundedDim 7 4
  ∧ specRoundedDim 7 4 ≤ 1200 * min 7 4 / max 7 4 + 1 :=
  C2_amended_truncated_dim 7 4 (by decide) (by decide)

/-- C3: the Vector PDF Repositioner applies one uniform scale
`288 / max(origWidth, origHeight)` to both axes, the transformed content
measures `origWidth * scale` by `origHeight * scale`, the translation is
`((288 - newWidth) / 2, (288 - newHeight) / 2)` onto the fixed
288-point-square page, and for a 612 by 792 point page the scale is
`288 / 792` with horizontal inset `(288 - 612 * 288 / 792) / 2`. -/
theorem C3_vector_uniform_scale (w h : ℚ) (_hw : 0 < w) (_hh : 0 < h) :
    (vectorTransform w h).scaleW = (vectorTransform w h).scaleH
  ∧ (vectorTransform w h).scaleW = 288 / max w h
  ∧ (vectorTransform w h).newW = w * (vectorTransform w h).scaleW
  ∧ (vectorTransform w h).newH = h * (vectorTransform w h).scaleH
  ∧ (vectorTransform w h).xOff = (288 - (vectorTransform w h).newW) / 2
  ∧ (vectorTransform w h).yOff = (288 - (vectorTransform w h).newH) / 2
  ∧ targetSizePt = 288
  ∧ (vectorTransform 612 792).scaleW = 288 / 792
  ∧ (vectorTransform 612 792).xOff = (288 - 612 * (288 / 792)) / 2 := by
  have ht : targetSizePt = 288 := by
    unfold targetSizePt
    norm_num
  have hs : (vectorTransform w h).scaleW = 288 / max w h := by
    show (if h < w then targetSizePt / w else targetSizePt / h) = 288 / max w h
    rcases lt_or_ge h w with hlt | hge
    · rw [if_pos hlt, max_eq_left (le_of_lt hlt), ht]
    · rw [if_neg (not_lt.mpr hge), max_eq_right hge, ht]
  refine ⟨rfl, hs, rfl, rfl, ?_, ?_, ht, ?_, ?_⟩
  · show (targetSizePt - (vectorTransform w h).newW) / 2 = _
    rw [ht]
  · show (targetSizePt - (vectorTransform w h).newH) / 2 = _
    rw [ht]
  · show (if (792 : ℚ) < 612 then targetSizePt / 612 else targetSizePt / 792) = 288 / 792
    rw [if_neg (by norm_num), ht]
  · show (targetSizePt - 612 * (if (792 : ℚ) < 612 then targetSizePt / 612 else targetSizePt / 792)) / 2
        = (288 - 612 * (288 / 792)) / 2
    rw [if_neg (by norm_num), ht]

/-- Witness for C3 at the concrete 612 by 792 point page. -/
theorem C3_vector_uniform_scale_witness :
    (vectorTransform 612 792).scaleW = (vectorTransform 612 792).scaleH
  ∧ (vectorTransform 612 792).scaleW = 288 / max (612 : ℚ) 792 := by
  have h := C3_vector_uniform_scale 612 792 (by norm_num) (by norm_num)
  exact ⟨h.1, h.2.1⟩

/-- A concrete 1 by 1 image in the LA mode (grayscale with alpha), fully
transparent with luminance 10, for the C6 counterexample. -/
def exLA : Img :=
  { width := 1, height := 1, mode := PixMode.LA, pix := fun _ _ => (10, 0, 0, 0) }

/-- C6, counterexample: `LA` is a mode with an alpha channel, yet the
code (which tests only for the exact mode string `RGBA` on line 228)
sends it through plain `convert('RGB')`, producing the dark pixel
(10, 10, 10) where compositing onto white with the alpha mask — what the
claim asserts for every alpha mode — would produce white. -/
theorem C6_alpha_counterexample :
    exLA.mode = PixMode.LA
  ∧ (toRGB exLA).pix 0 0 = (10, 10, 10, 255)
  ∧ (specAlphaComposite exLA).pix 0 0 = (255, 255, 255, 255)
  ∧ (toRGB exLA).pix 0 0 ≠ (specAlphaComposite exLA).pix 0 0 := by
  decide

/-- C6, amended: only the `RGBA` mode is composited onto white using its
alpha channel as mask; `RGB` passes through unchanged; every other
non-RGB mode — including the alpha mode `LA`, whose alpha channel is
simply discarded — is converted to RGB directly. -/
theorem C6_amended_mode_conversion (img : Img) (x y : Nat) :
    (toRGB img).mode = PixMode.RGB
  ∧ (toRGB img).width = img.width
  ∧ (toRGB img).height = img.height
  ∧ (img.mode = PixMode.RGB → toRGB img = img)
  ∧ (img.mode = PixMode.RGBA →
      (toRGB img).pix x y
        = (blend 255 (img.pix x y).1 (img.pix x y).2.2.2,
           blend 255 (img.pix x y).2.1 (img.pix x y).2.2.2,
           blend 255 (img.pix x y).2.2.1 (img.pix x y).2.2.2, 255))
  ∧ ((img.mode = PixMode.L ∨ img.mode = PixMode.LA) →
      (toRGB img).pix x y
        = ((img.pix x y).1, (img.pix x y).1, (img.pix x y).1, 255)) := by
  refine ⟨toRGB_mode img, toRGB_width img, toRGB_height img, toRGB_of_rgb img, ?_, ?_⟩
  · cases img with
    | mk w h m p =>
      intro hm
      cases m
      · exact absurd hm (by simp)
      · rfl
      · exact absurd hm (by simp)
      · exact absurd hm (by simp)
  · cases img with
    | mk w h m p =>
      intro hm
      cases m
      · rcases hm with h1 | h1 <;> exact absurd h1 (by simp)
      · rcases hm with h1 | h1 <;> exact absurd h1 (by simp)
      · rfl
      · rfl

/-- Witness for the amended C6 at the concrete LA input. -/
theorem C6_amended_mode_conversion_witness :
    (toRGB exLA).mode = PixMode.RGB
  ∧ (toRGB exLA).pix 0 0
      = ((exLA.pix 0 0).1, (exLA.pix 0 0).1, (exLA.pix 0 0).1, 255) := by
  have h := C6_amended_mode_conversion exLA 0 0
  exact ⟨h.1, h.2.2.2.2.2 (Or.inr rfl)⟩

/-- Appending the upper-case extension `.PDF` to any stem yields that
extension from `splitext` exactly when the stem's basename has a non-dot
character, mirroring CPython's all-dots guard. -/
theorem splitext_append_PDF (p : List Char) :
    splitextExt (p ++ ['.', 'P', 'D', 'F'])
      = if baseHasNonDot p.reverse then ['.', 'P', 'D', 'F'] else [] := by
  unfold splitextExt
  rw [List.reverse_append]
  rfl

/-- Lower-case variant of `splitext_append_PDF`. -/
theorem splitext_append_pdf (p : List Char) :
    splitextExt (p ++ ['.', 'p', 'd', 'f'])
      = if baseHasNonDot p.reverse then ['.', 'p', 'd', 'f'] else [] := by
  unfold splitextExt
  rw [List.reverse_append]
  rfl

/-- After lowercasing, the extensions of `stem.PDF` and `stem.pdf`
coincide for every stem. -/
theorem extLower_PDF_eq_pdf (p : List Char) :
    extLower (p ++ ['.', 'P', 'D', 'F']) = extLower (p ++ ['.', 'p', 'd', 'f']) := by
  unfold extLower
  rw [splitext_append_PDF, splitext_append_pdf]
  cases hb : baseHasNonDot p.reverse <;> rfl

/-- C10: routing in `resize_and_save` factors through the lowercased
extension — any two paths with the same lowercased extension are routed
identically — and in particular a path ending in `.PDF` (any casing) is
routed exactly like the same path ending in `.pdf`, for all flag values;
the route never depends on file content. -/
theorem C10_case_insensitive_routing (p q : List Char) (pv po : Bool) :
    (extLower p = extLower q → routeOf p pv po = routeOf q pv po)
  ∧ routeOf (p ++ ['.', 'P', 'D', 'F']) pv po
      = routeOf (p ++ ['.', 'p', 'd', 'f']) pv po := by
  constructor
  · intro hext
    unfold routeOf
    rw [hext]
  · unfold routeOf
    rw [extLower_PDF_eq_pdf]

/-- Witness for C10: the concrete paths `a.PNG` and `b.png` are routed
identically, as are `a.PDF` and `a.pdf`. -/
theorem C10_case_insensitive_routing_witness :
    routeOf ['a', '.', 'P', 'N', 'G'] true false = routeOf ['b', '.', 'p', 'n', 'g'] true false
  ∧ routeOf (['a'] ++ ['.', 'P', 'D', 'F']) true true
      = routeOf (['a'] ++ ['.', 'p', 'd', 'f']) true true := by
  have h1 := C10_case_insensitive_routing ['a', '.', 'P', 'N', 'G'] ['b', '.', 'p', 'n', 'g'] true false
  have h2 := C10_case_insensitive_routing ['a'] ['a'] true true
  exact ⟨h1.1 (by decide), h2.2⟩
